import Mathlib

/-!
Shallow embedding of the vLLM v1 KV-cache manager
(`vllm/v1/core/kv_cache_manager.py`) and of the cache telemetry counters
(`vllm/v1/metrics/loggers.py`, class `CacheTelemetry`).

Collaborators that the manager calls but whose code is not part of this
repository snapshot (the `BlockPool`, the cache-topology policy, the block
hasher, `PrefixCacheStats`) are modelled from the specification; each such
definition carries a doc comment starting with "Modelled from the spec".
Wall-clock time-series fields of the telemetry (`*_ts` lists of timestamps)
are not modelled, since they only record real time.

Python `int` is translated as `Int` (with Python floor division `//` as
`Int.fdiv`), sizes and list lengths as `Nat`.  Request-id keyed dictionaries
are translated as association lists.  A raised `ValueError`/`AssertionError`
in `allocate_slots` is the `AllocResult.err` outcome; the "cannot allocate"
`None` return is `AllocResult.noAlloc`.
-/

namespace VllmKV

/-- Ceiling division on integers, as `vllm.utils.cdiv`: `-(a // -b)`. -/
def cdivInt (a b : Int) : Int := -(Int.fdiv a (-b))

/-- Lookup in a request-id keyed association list (first binding wins). -/
def alookup {V : Type} (m : List (String × V)) (k : String) : Option V :=
  (m.find? (fun p => p.1 == k)).map Prod.snd

/-- Lookup with a default value (the `defaultdict` read / `dict.get`). -/
def alookupD {V : Type} (m : List (String × V)) (k : String) (d : V) : V :=
  (alookup m k).getD d

/-- Store a binding, replacing any previous binding of the same key. -/
def aset {V : Type} (m : List (String × V)) (k : String) (v : V) :
    List (String × V) :=
  (k, v) :: m.filter (fun p => p.1 != k)

/-- Remove a key (the `dict.pop(key, default)` mutation). -/
def aerase {V : Type} (m : List (String × V)) (k : String) :
    List (String × V) :=
  m.filter (fun p => p.1 != k)

/-- `CacheTelemetry` (loggers.py): cache hit/miss statistics at block and
request level.  The wall-clock time-series lists are not modelled. -/
structure CacheTelemetry where
  total_blocks : Int
  total_hits : Int
  total_misses : Int
  total_evictions : Int
  first_block : Bool
  unique_requests : Nat
  requests_with_hits : List String
  requests_with_misses : List String
  requests_with_evictions : List String
  tracked_requests : List String
  deriving DecidableEq, Repr

/-- `CacheTelemetry.reset`: zero every counter, clear every set, and re-arm
the `first_block` flag. -/
def CacheTelemetry.reset (_t : CacheTelemetry) : CacheTelemetry :=
  { total_blocks := 0, total_hits := 0, total_misses := 0,
    total_evictions := 0, first_block := true, unique_requests := 0,
    requests_with_hits := [], requests_with_misses := [],
    requests_with_evictions := [], tracked_requests := [] }

/-- `CacheTelemetry.record_hit`: the very first call after construction or
reset is ignored entirely; afterwards per-request bookkeeping is updated and,
for a positive count, the block counters grow. -/
def CacheTelemetry.record_hit (t : CacheTelemetry) (num_blocks : Int)
    (request_id : Option String) : CacheTelemetry :=
  if t.first_block then
    { t with first_block := false }
  else
    let t1 :=
      match request_id with
      | some rid =>
        let ta :=
          if rid ∈ t.tracked_requests then t
          else { t with unique_requests := t.unique_requests + 1,
                        tracked_requests := rid :: t.tracked_requests }
        if rid ∈ ta.requests_with_hits then ta
        else { ta with requests_with_hits := rid :: ta.requests_with_hits }
      | none => t
    if num_blocks > 0 then
      { t1 with total_blocks := t1.total_blocks + num_blocks,
                total_hits := t1.total_hits + num_blocks }
    else t1

/-- `CacheTelemetry.record_miss`. -/
def CacheTelemetry.record_miss (t : CacheTelemetry) (num_blocks : Int)
    (request_id : Option String) : CacheTelemetry :=
  let t1 :=
    match request_id with
    | some rid =>
      let ta :=
        if rid ∈ t.tracked_requests then t
        else { t with unique_requests := t.unique_requests + 1,
                      tracked_requests := rid :: t.tracked_requests }
      if rid ∈ ta.requests_with_misses then ta
      else { ta with requests_with_misses := rid :: ta.requests_with_misses }
    | none => t
  if num_blocks > 0 then
    { t1 with total_blocks := t1.total_blocks + num_blocks,
              total_misses := t1.total_misses + num_blocks }
  else t1

/-- `CacheTelemetry.record_eviction`. -/
def CacheTelemetry.record_eviction (t : CacheTelemetry) (num_blocks : Int)
    (request_id : Option String) : CacheTelemetry :=
  let t1 := { t with total_evictions := t.total_evictions + num_blocks }
  match request_id with
  | some rid =>
    let ta :=
      if rid ∈ t1.tracked_requests then t1
      else { t1 with unique_requests := t1.unique_requests + 1,
                     tracked_requests := rid :: t1.tracked_requests }
    if rid ∈ ta.requests_with_evictions then ta
    else { ta with requests_with_evictions := rid :: ta.requests_with_evictions }
  | none => t1

/-- Modelled from the spec: `PrefixCacheStats`
(`vllm.v1.metrics.stats`, not part of this snapshot) — the drainable
snapshot of integer cache counters `{requests, queries, hits, evictions}`
plus the request-level counters this fork adds. -/
structure PrefixCacheStats where
  requests : Nat
  queries : Nat
  hits : Nat
  request_hits : Nat
  evictions : Nat
  request_evictions : Nat
  deriving DecidableEq, Repr

/-- A block content hash.  The spec fixes the semantics of a chain hash:
two chains agree at position k iff all tokens of blocks 0..k agree, so the
hash of block k is modelled as that exact token prefix (a perfect hash). -/
abbrev BlockHash := List Int

/-- Modelled from the spec: the Block Pool (spec section 4.3).  Blocks are
identified by their index into `refs`; `hashes` holds the per-block content
hash; `index` is the hash-to-block cache index; `queue` is the
free/evictable queue, oldest-released first. -/
structure BlockPool where
  refs : List Int
  hashes : List (Option BlockHash)
  index : List (BlockHash × Nat)
  queue : List Nat
  deriving DecidableEq, Repr

/-- Lookup a hash in the cache index. -/
def lookupIndex (index : List (BlockHash × Nat)) (h : BlockHash) :
    Option Nat :=
  (index.find? (fun p => p.1 == h)).map Prod.snd

/-- The ref count of a block (0 for an out-of-range id). -/
def BlockPool.refOf (p : BlockPool) (b : Nat) : Int :=
  (p.refs[b]?).getD 0

/-- Modelled from the spec: blocks with `ref_count == 0`, i.e. the length of
the free/evictable queue. -/
def BlockPool.get_num_free_blocks (p : BlockPool) : Nat := p.queue.length

/-- One step of `free_blocks`: decrement the ref count; a block reaching 0
is appended to the tail of the evictable queue. -/
def BlockPool.freeBlock (p : BlockPool) (b : Nat) : BlockPool :=
  let r := p.refOf b - 1
  let p1 : BlockPool := { p with refs := p.refs.set b r }
  if r = 0 then { p1 with queue := p1.queue ++ [b] } else p1

/-- Modelled from the spec: `free_blocks` releases the given blocks in the
given order. -/
def BlockPool.free_blocks (p : BlockPool) (bs : List Nat) : BlockPool :=
  bs.foldl BlockPool.freeBlock p

/-- One step of `touch`: pin a block — a zero-ref block leaves the evictable
queue; the ref count is incremented. -/
def BlockPool.touchOne (p : BlockPool) (b : Nat) : BlockPool :=
  let p1 : BlockPool :=
    if p.refOf b = 0 then { p with queue := p.queue.erase b } else p
  { p1 with refs := p1.refs.set b (p1.refOf b + 1) }

/-- Modelled from the spec: `touch` pins a list of computed blocks so they
cannot be evicted before being appended to a request's list. -/
def BlockPool.touch (p : BlockPool) (bs : List Nat) : BlockPool :=
  bs.foldl BlockPool.touchOne p

/-- One step of `get_new_blocks`: a popped block that still carries cached
content is evicted (index entry and content hash dropped) before being
handed out with ref count 1. -/
def BlockPool.evictAssign (p : BlockPool) (b : Nat) : BlockPool :=
  let p1 : BlockPool :=
    match (p.hashes[b]?).getD none with
    | some h =>
      { p with index := p.index.filter (fun e => e.1 != h),
               hashes := p.hashes.set b none }
    | none => p
  { p1 with refs := p1.refs.set b 1 }

/-- Modelled from the spec: `get_new_blocks` pops `n` blocks from the head
of the free queue, evicting any cached content they still hold. -/
def BlockPool.get_new_blocks (p : BlockPool) (n : Nat) :
    List Nat × BlockPool :=
  let taken := p.queue.take n
  (taken, taken.foldl BlockPool.evictAssign { p with queue := p.queue.drop n })

/-- One step of `cache_full_blocks` for chain position `i`. -/
def BlockPool.cfbStep (blocks : List Nat) (block_hashes : List BlockHash)
    (p : BlockPool) (i : Nat) : BlockPool :=
  match block_hashes[i]?, blocks[i]? with
  | some h, some b =>
    let p1 : BlockPool := { p with hashes := p.hashes.set b (some h) }
    if (lookupIndex p1.index h).isSome then p1
    else { p1 with index := p1.index ++ [(h, b)] }
  | _, _ => p

/-- Modelled from the spec: `cache_full_blocks` registers every block with
chain index in `[num_cached, num_full)` into the cache index, assigning its
content hash from the chain; a hash already resident stays authoritative
(the block is not re-indexed).  Positions past the end of the stored chain
are skipped (the real collaborator would extend the chain there). -/
def BlockPool.cache_full_blocks (p : BlockPool) (blocks : List Nat)
    (block_hashes : List BlockHash) (num_cached num_full : Nat) : BlockPool :=
  (List.range' num_cached (num_full - num_cached)).foldl
    (BlockPool.cfbStep blocks block_hashes) p

/-- Modelled from the spec: the full-attention cache-topology policy keeps
every block relevant forever, so `remove_skipped_blocks` is always empty. -/
def remove_skipped_blocks (_blocks : List Nat) (_num_computed_tokens : Nat) :
    List Nat := []

/-- Modelled from the spec: `find_longest_cache_hit` scans the chain from
the start, matching each hash against the cache index, and stops at the
first miss. -/
def find_longest_cache_hit (index : List (BlockHash × Nat)) :
    List BlockHash → List Nat
  | [] => []
  | h :: rest =>
    match lookupIndex index h with
    | some b => b :: find_longest_cache_hit index rest
    | none => []

/-- Modelled from the spec: the Block Hasher produces one hash per complete
block of the token sequence; the hash of block k is modelled as the exact
token prefix of blocks 0..k (see `BlockHash`). -/
def hash_request_tokens (block_size : Nat) (tokens : List Int) :
    List BlockHash :=
  (List.range (tokens.length / block_size)).map
    (fun k => tokens.take ((k + 1) * block_size))

/-- The externally-owned request, restricted to the fields the manager
reads: token ids, computed-token count, in-flight speculative token ids and
the prompt-logprobs sampling flag. -/
structure Request where
  request_id : String
  tokens : List Int
  num_computed_tokens : Nat
  spec_token_ids : List Int
  prompt_logprobs : Option Nat
  deriving DecidableEq, Repr

/-- `Request.num_tokens`: total token count. -/
def Request.num_tokens (r : Request) : Nat := r.tokens.length

/-- The `KVCacheManager` state (kv_cache_manager.py).  The `defaultdict`
request maps are association lists read with default `[]`;
`num_preallocate_blocks` is the value `cdiv(num_preallocate_tokens,
block_size)` computed by `__init__`. -/
structure KVCacheManager where
  block_size : Nat
  max_model_len : Nat
  enable_caching : Bool
  log_stats : Bool
  num_preallocate_blocks : Nat
  pool : BlockPool
  req_to_blocks : List (String × List Nat)
  req_to_block_hashes : List (String × List BlockHash)
  num_cached_block : List (String × Int)
  prefix_cache_stats : PrefixCacheStats
  cache_telemetry : CacheTelemetry
  deriving DecidableEq, Repr

/-- `max_num_blocks_per_req = cdiv(max_model_len, block_size)`. -/
def KVCacheManager.max_num_blocks_per_req (st : KVCacheManager) : Int :=
  cdivInt st.max_model_len st.block_size

/-- `KVCacheManager.get_computed_blocks`.  Returns the matched blocks and
the computed-token count, together with the updated manager state.  The
Python code pops the last hash from the stored chain and appends it back
after matching; the net effect on the stored chain is written here as
`chain ++ last` in one step. -/
def KVCacheManager.get_computed_blocks (st : KVCacheManager)
    (request : Request) : (List Nat × Nat) × KVCacheManager :=
  if !st.enable_caching then (([], 0), st)
  else
    let cached := alookupD st.req_to_block_hashes request.request_id []
    let block_hashes :=
      if cached.isEmpty then hash_request_tokens st.block_size request.tokens
      else cached
    let m1 :=
      if cached.isEmpty then
        aset st.req_to_block_hashes request.request_id block_hashes
      else st.req_to_block_hashes
    let st1 : KVCacheManager :=
      { st with
        req_to_block_hashes := m1,
        prefix_cache_stats :=
          { st.prefix_cache_stats with
            requests := st.prefix_cache_stats.requests + 1 } }
    if request.prompt_logprobs.isSome then (([], 0), st1)
    else
      let exact := block_hashes.length * st.block_size = request.num_tokens
      let chain := if exact then block_hashes.dropLast else block_hashes
      let computed := find_longest_cache_hit st.pool.index chain
      let stats1 :=
        { st1.prefix_cache_stats with
          queries := st1.prefix_cache_stats.queries + chain.length,
          hits := st1.prefix_cache_stats.hits + computed.length }
      let stats2 :=
        if computed.length > 0 then
          { stats1 with request_hits := stats1.request_hits + 1 }
        else stats1
      let tel :=
        if st.log_stats then
          (st.cache_telemetry.record_hit computed.length
              (some request.request_id)).record_miss
            ((chain.length : Int) - computed.length)
            (some request.request_id)
        else st.cache_telemetry
      let stored :=
        if exact then chain ++ block_hashes.getLast?.toList else block_hashes
      ((computed, computed.length * st.block_size),
       { st1 with
         prefix_cache_stats := stats2,
         cache_telemetry := tel,
         req_to_block_hashes := aset m1 request.request_id stored })

/-- Outcome of `allocate_slots`: a raised error, the explicit
"cannot allocate now" `None`, or the list of newly pool-sourced blocks. -/
inductive AllocResult where
  | err : AllocResult
  | noAlloc : AllocResult
  | ok : List Nat → AllocResult
  deriving DecidableEq, Repr

/-- Whether an `AllocResult` is a successful allocation. -/
def AllocResult.isOk : AllocResult → Bool
  | .ok _ => true
  | _ => false

/-- The caching tail of `allocate_slots` (kv_cache_manager.py lines
285-310): write back the request's block list, and when caching is enabled
register the full blocks `[num_cached, num_full)` into the cache index and
persist `num_full` as the request's recorded cached-block count. -/
def KVCacheManager.allocFinish (st1 : KVCacheManager) (request : Request)
    (num_computed_tokens num_tokens : Int) (new_computed_len : Nat)
    (req_blocks2 new_blocks : List Nat) (pool3 : BlockPool)
    (stats1 : PrefixCacheStats) (tel1 : CacheTelemetry) :
    AllocResult × KVCacheManager :=
  let st2 : KVCacheManager :=
    { st1 with
      pool := pool3,
      prefix_cache_stats := stats1,
      cache_telemetry := tel1,
      req_to_blocks := aset st1.req_to_blocks request.request_id req_blocks2 }
  if !st1.enable_caching then (.ok new_blocks, st2)
  else
    let num_cached : Int :=
      alookupD st1.num_cached_block request.request_id (new_computed_len : Int)
    let num_full : Int :=
      Int.fdiv (num_computed_tokens + num_tokens -
        request.spec_token_ids.length) st1.block_size
    let block_hashes := alookupD st1.req_to_block_hashes request.request_id []
    let pool4 := pool3.cache_full_blocks req_blocks2 block_hashes
      num_cached.toNat num_full.toNat
    (.ok new_blocks,
     { st2 with
       pool := pool4,
       num_cached_block :=
         aset st2.num_cached_block request.request_id num_full })

/-- `KVCacheManager.allocate_slots`. -/
def KVCacheManager.allocate_slots (st : KVCacheManager) (request : Request)
    (num_tokens : Int) (new_computed_blocks : List Nat) :
    AllocResult × KVCacheManager :=
  if num_tokens = 0 then (.err, st)
  else
    let req_blocks := alookupD st.req_to_blocks request.request_id []
    let removed := remove_skipped_blocks req_blocks request.num_computed_tokens
    let st1 : KVCacheManager := { st with pool := st.pool.free_blocks removed }
    let num_computed_tokens : Int :=
      (request.num_computed_tokens : Int) +
        (new_computed_blocks.length : Int) * (st.block_size : Int)
    let num_required_blocks : Int :=
      cdivInt (num_computed_tokens + num_tokens) st.block_size
    let num_new_blocks : Int :=
      num_required_blocks - (req_blocks.length : Int) -
        (new_computed_blocks.length : Int)
    let num_evictable : Nat :=
      (new_computed_blocks.filter (fun b => st1.pool.refOf b == 0)).length
    if num_new_blocks >
        (st1.pool.get_num_free_blocks : Int) - (num_evictable : Int) then
      (.noAlloc, st1)
    else if !st.enable_caching && !new_computed_blocks.isEmpty then
      (.err, st1)
    else
      let pool2 :=
        if st.enable_caching then st1.pool.touch new_computed_blocks
        else st1.pool
      let req_blocks1 := req_blocks ++ new_computed_blocks
      if num_new_blocks ≤ 0 then
        st1.allocFinish request num_computed_tokens num_tokens
          new_computed_blocks.length req_blocks1 [] pool2
          st1.prefix_cache_stats st1.cache_telemetry
      else
        let n : Int :=
          min (num_new_blocks + (st.num_preallocate_blocks : Int))
            (min (pool2.get_num_free_blocks : Int)
              (st.max_num_blocks_per_req - (req_blocks1.length : Int)))
        if n ≤ 0 then
          (.err,
           { st1 with
             pool := pool2,
             req_to_blocks :=
               aset st1.req_to_blocks request.request_id req_blocks1 })
        else
          let readily : Int := pool2.get_num_free_blocks
          let sr :=
            if n > readily then
              ({ st1.prefix_cache_stats with
                 evictions :=
                   st1.prefix_cache_stats.evictions + (n - readily).toNat,
                 request_evictions :=
                   st1.prefix_cache_stats.request_evictions + 1 },
               if st.log_stats then
                 st1.cache_telemetry.record_eviction (n - readily)
                   (some request.request_id)
               else st1.cache_telemetry)
            else (st1.prefix_cache_stats, st1.cache_telemetry)
          let nb := pool2.get_new_blocks n.toNat
          st1.allocFinish request num_computed_tokens num_tokens
            new_computed_blocks.length (req_blocks1 ++ nb.1) nb.1 nb.2
            sr.1 sr.2

/-- `KVCacheManager.free`: pop the request's block list and release it, in
reverse order when caching is enabled; drop the cached-block count. -/
def KVCacheManager.free (st : KVCacheManager) (request : Request) :
    KVCacheManager :=
  let blocks := alookupD st.req_to_blocks request.request_id []
  let ordered := if st.enable_caching then blocks.reverse else blocks
  { st with
    req_to_blocks := aerase st.req_to_blocks request.request_id,
    pool := st.pool.free_blocks ordered,
    num_cached_block := aerase st.num_cached_block request.request_id }

/-- `KVCacheManager.free_block_hashes`: discard the stored hash chain. -/
def KVCacheManager.free_block_hashes (st : KVCacheManager)
    (request : Request) : KVCacheManager :=
  { st with
    req_to_block_hashes := aerase st.req_to_block_hashes request.request_id }

/-! ### Concrete fixtures used by witnesses and counterexamples -/

/-- A zeroed telemetry with the first-block flag armed (the state right
after construction or `reset`). -/
def tel0 : CacheTelemetry :=
  { total_blocks := 0, total_hits := 0, total_misses := 0,
    total_evictions := 0, first_block := true, unique_requests := 0,
    requests_with_hits := [], requests_with_misses := [],
    requests_with_evictions := [], tracked_requests := [] }

/-- Fresh prefix-cache stats. -/
def stats0 : PrefixCacheStats := ⟨0, 0, 0, 0, 0, 0⟩

/-- A 32-token prompt. -/
def toks32 : List Int := List.replicate 32 0

/-- Chain hash of its first block. -/
def hash0 : BlockHash := List.replicate 16 0

/-- Chain hash of its second block. -/
def hash1 : BlockHash := List.replicate 32 0

/-- Fixture for the exact-multiple edge case: both blocks of `toks32` are
resident in the cache index. -/
def stC1 : KVCacheManager :=
  { block_size := 16, max_model_len := 160, enable_caching := true,
    log_stats := false, num_preallocate_blocks := 4,
    pool := { refs := [1, 1], hashes := [some hash0, some hash1],
              index := [(hash0, 0), (hash1, 1)], queue := [] },
    req_to_blocks := [], req_to_block_hashes := [], num_cached_block := [],
    prefix_cache_stats := stats0, cache_telemetry := tel0 }

/-- The request with the fully cached 32-token prompt. -/
def reqC1 : Request :=
  { request_id := "r1", tokens := toks32, num_computed_tokens := 0,
    spec_token_ids := [], prompt_logprobs := none }

/-- Fixture for the negative-token-count counterexample: caching disabled,
one block already held, 16 tokens computed. -/
def stC2 : KVCacheManager :=
  { block_size := 16, max_model_len := 160, enable_caching := false,
    log_stats := false, num_preallocate_blocks := 4,
    pool := { refs := [1], hashes := [none], index := [], queue := [] },
    req_to_blocks := [("r2", [0])], req_to_block_hashes := [],
    num_cached_block := [], prefix_cache_stats := stats0,
    cache_telemetry := tel0 }

/-- The request used with `stC2`. -/
def reqC2 : Request :=
  { request_id := "r2", tokens := List.replicate 16 0,
    num_computed_tokens := 16, spec_token_ids := [], prompt_logprobs := none }

/-- Fixture for capacity exhaustion: the pool has no free block. -/
def stC3 : KVCacheManager :=
  { block_size := 16, max_model_len := 160, enable_caching := true,
    log_stats := false, num_preallocate_blocks := 4,
    pool := { refs := [1], hashes := [none], index := [], queue := [] },
    req_to_blocks := [], req_to_block_hashes := [], num_cached_block := [],
    prefix_cache_stats := stats0, cache_telemetry := tel0 }

/-- The request used with `stC3`. -/
def reqC3 : Request :=
  { request_id := "r3", tokens := List.replicate 16 0,
    num_computed_tokens := 0, spec_token_ids := [], prompt_logprobs := none }

/-- Fixture for the preallocation counterexample: ten free blocks,
caching disabled, preallocation of four blocks. -/
def stC8 : KVCacheManager :=
  { block_size := 16, max_model_len := 160, enable_caching := false,
    log_stats := false, num_preallocate_blocks := 4,
    pool := { refs := List.replicate 10 0,
              hashes := List.replicate 10 none,
              index := [], queue := [0, 1, 2, 3, 4, 5, 6, 7, 8, 9] },
    req_to_blocks := [], req_to_block_hashes := [], num_cached_block := [],
    prefix_cache_stats := stats0, cache_telemetry := tel0 }

/-- The request used with `stC8`. -/
def reqC8 : Request :=
  { request_id := "r8", tokens := List.replicate 16 0,
    num_computed_tokens := 0, spec_token_ids := [], prompt_logprobs := none }

/-- Fixture for the unrecorded-eviction counterexample: the only free block
still holds cached content (it sits in the queue and in the index). -/
def stC9 : KVCacheManager :=
  { block_size := 16, max_model_len := 16, enable_caching := true,
    log_stats := true, num_preallocate_blocks := 0,
    pool := { refs := [0], hashes := [some hash0],
              index := [(hash0, 0)], queue := [0] },
    req_to_blocks := [], req_to_block_hashes := [], num_cached_block := [],
    prefix_cache_stats := stats0, cache_telemetry := tel0 }

/-- The request used with `stC9`. -/
def reqC9 : Request :=
  { request_id := "r9", tokens := List.replicate 16 0,
    num_computed_tokens := 0, spec_token_ids := [], prompt_logprobs := none }

/-- Fixture for cache publication: two free blocks, the request's chain
already stored. -/
def stC5 : KVCacheManager :=
  { block_size := 16, max_model_len := 32, enable_caching := true,
    log_stats := false, num_preallocate_blocks := 0,
    pool := { refs := [0, 0], hashes := [none, none],
              index := [], queue := [0, 1] },
    req_to_blocks := [], req_to_block_hashes := [("r5", [hash0, hash1])],
    num_cached_block := [], prefix_cache_stats := stats0,
    cache_telemetry := tel0 }

/-- The request used with `stC5`. -/
def reqC5 : Request :=
  { request_id := "r5", tokens := toks32, num_computed_tokens := 0,
    spec_token_ids := [], prompt_logprobs := none }

/-- Fixture for freeing: a request holding blocks 0 and 1, each with ref
count 1, caching enabled. -/
def stC6 : KVCacheManager :=
  { block_size := 16, max_model_len := 160, enable_caching := true,
    log_stats := false, num_preallocate_blocks := 4,
    pool := { refs := [1, 1], hashes := [none, none],
              index := [], queue := [] },
    req_to_blocks := [("r6", [0, 1])], req_to_block_hashes := [],
    num_cached_block := [], prefix_cache_stats := stats0,
    cache_telemetry := tel0 }

/-- The request used with `stC6` and `stC7`. -/
def reqC6 : Request :=
  { request_id := "r6", tokens := List.replicate 32 0,
    num_computed_tokens := 0, spec_token_ids := [], prompt_logprobs := none }

/-- Fixture for idempotent freeing: the request id owns nothing. -/
def stC7 : KVCacheManager :=
  { block_size := 16, max_model_len := 160, enable_caching := true,
    log_stats := false, num_preallocate_blocks := 4,
    pool := { refs := [1], hashes := [none], index := [], queue := [] },
    req_to_blocks := [("other", [0])], req_to_block_hashes := [],
    num_cached_block := [], prefix_cache_stats := stats0,
    cache_telemetry := tel0 }

/-! ### Association-list lemmas -/

theorem alookup_aset_self {V : Type} (m : List (String × V)) (k : String)
    (v : V) : alookup (aset m k v) k = some v := by
  simp [alookup, aset]

theorem alookup_aerase_self {V : Type} (m : List (String × V)) (k : String) :
    alookup (aerase m k) k = none := by
  simp only [alookup, aerase, Option.map_eq_none', List.find?_eq_none,
    List.mem_filter]
  intro x hx
  simpa using hx.2

theorem aerase_aerase {V : Type} (m : List (String × V)) (k : String) :
    aerase (aerase m k) k = aerase m k := by
  simp [aerase, List.filter_filter]

theorem aerase_of_alookup_none {V : Type} {m : List (String × V)}
    {k : String} (h : alookup m k = none) : aerase m k = m := by
  simp only [alookup, Option.map_eq_none', List.find?_eq_none] at h
  exact List.filter_eq_self.mpr (fun a ha => by simpa using h a ha)

/-! ### Cache-hit scan lemmas -/

theorem find_longest_cache_hit_length_le (index : List (BlockHash × Nat))
    (chain : List BlockHash) :
    (find_longest_cache_hit index chain).length ≤ chain.length := by
  induction chain with
  | nil => simp [find_longest_cache_hit]
  | cons h rest ih =>
    rw [find_longest_cache_hit]
    cases lookupIndex index h with
    | none => simp
    | some b => simpa using ih

theorem find_longest_cache_hit_length_of_hits (index : List (BlockHash × Nat))
    (chain : List BlockHash)
    (hall : ∀ h ∈ chain, (lookupIndex index h).isSome = true) :
    (find_longest_cache_hit index chain).length = chain.length := by
  induction chain with
  | nil => simp [find_longest_cache_hit]
  | cons h rest ih =>
    rw [find_longest_cache_hit]
    have hh := hall h (List.mem_cons_self h rest)
    cases hlk : lookupIndex index h with
    | none => rw [hlk] at hh; simp at hh
    | some b =>
      simpa using ih (fun x hx => hall x (List.mem_cons_of_mem h hx))

theorem dropLast_append_getLast?_toList {α : Type} (l : List α)
    (h : l ≠ []) : l.dropLast ++ l.getLast?.toList = l := by
  rw [List.getLast?_eq_getLast l h]
  exact List.dropLast_append_getLast h

/-! ### Pool lemmas: freeing, touching, pulling -/

theorem refOf_set (p : BlockPool) (b : Nat) (r : Int) (x : Nat)
    (hx : x ≠ b) : ((p.refs.set b r)[x]?).getD 0 = p.refOf x := by
  simp [BlockPool.refOf, List.getElem?_set_ne (fun e => hx e.symm)]

theorem touchOne_queue (p : BlockPool) (b : Nat) :
    (p.touchOne b).queue =
      if p.refOf b = 0 then p.queue.erase b else p.queue := by
  simp only [BlockPool.touchOne]
  split <;> rfl

theorem touchOne_refs (p : BlockPool) (b : Nat) :
    (p.touchOne b).refs = p.refs.set b (p.refOf b + 1) := by
  simp only [BlockPool.touchOne]
  split <;> rfl

theorem touchOne_refOf_ne (p : BlockPool) (b x : Nat) (hx : x ≠ b) :
    (p.touchOne b).refOf x = p.refOf x := by
  have : (p.touchOne b).refOf x = ((p.refs.set b (p.refOf b + 1))[x]?).getD 0 := by
    simp [BlockPool.refOf, touchOne_refs]
  rw [this, refOf_set p b _ x hx]

theorem touchOne_refOf_self (p : BlockPool) (b : Nat) :
    (p.touchOne b).refOf b = p.refOf b ∨
      (p.touchOne b).refOf b = p.refOf b + 1 := by
  have hr : (p.touchOne b).refOf b =
      ((p.refs.set b (p.refOf b + 1))[b]?).getD 0 := by
    simp [BlockPool.refOf, touchOne_refs]
  by_cases hrange : b < p.refs.length
  · right
    rw [hr, List.getElem?_set_self hrange]
    rfl
  · left
    rw [hr, List.set_eq_of_length_le (Nat.le_of_not_lt hrange)]
    rfl

theorem free_blocks_queue (l : List Nat) (p : BlockPool)
    (h1 : ∀ b ∈ l, p.refOf b = 1) (h2 : l.Nodup) :
    (p.free_blocks l).queue = p.queue ++ l := by
  induction l generalizing p with
  | nil => simp [BlockPool.free_blocks]
  | cons b rest ih =>
    have hb : p.refOf b = 1 := h1 b (List.mem_cons_self b rest)
    have hstep : p.freeBlock b =
        { p with refs := p.refs.set b 0, queue := p.queue ++ [b] } := by
      simp [BlockPool.freeBlock, hb]
    have hne : ∀ x ∈ rest, x ≠ b := by
      intro x hx hxe
      exact (List.nodup_cons.mp h2).1 (hxe ▸ hx)
    have h1' : ∀ x ∈ rest, (p.freeBlock b).refOf x = 1 := by
      intro x hx
      rw [hstep]
      have hval : BlockPool.refOf { p with refs := p.refs.set b 0, queue := p.queue ++ [b] } x = ((p.refs.set b 0)[x]?).getD 0 := rfl
      rw [hval, refOf_set p b 0 x (hne x hx)]
      exact h1 x (List.mem_cons_of_mem b hx)
    have hq : (p.freeBlock b).queue = p.queue ++ [b] := by rw [hstep]
    have hfold : p.free_blocks (b :: rest) = (p.freeBlock b).free_blocks rest := by
      simp [BlockPool.free_blocks]
    rw [hfold, ih (p.freeBlock b) h1' (List.nodup_cons.mp h2).2, hq]
    simp

theorem length_filter_le_of_imp {α : Type} (l : List α) (q p : α → Bool)
    (h : ∀ x ∈ l, q x = true → p x = true) :
    (l.filter q).length ≤ (l.filter p).length := by
  induction l with
  | nil => simp
  | cons a t ih =>
    simp only [List.filter_cons]
    have ht : ∀ x ∈ t, q x = true → p x = true :=
      fun x hx => h x (List.mem_cons_of_mem a hx)
    have iht := ih ht
    by_cases hq : q a = true
    · rw [if_pos hq, if_pos (h a (List.mem_cons_self a t) hq)]
      simpa using iht
    · rw [if_neg hq]
      split
      · simpa using Nat.le_succ_of_le iht
      · exact iht

theorem touch_free_blocks_ge (nc : List Nat) (p : BlockPool)
    (h : ∀ b ∈ nc, 0 ≤ p.refOf b) :
    (p.get_num_free_blocks : Int) -
        ((nc.filter (fun b => p.refOf b == 0)).length : Int) ≤
      ((p.touch nc).get_num_free_blocks : Int) := by
  induction nc generalizing p with
  | nil => simp [BlockPool.touch]
  | cons b rest ih =>
    have hb0le : 0 ≤ p.refOf b := h b (List.mem_cons_self b rest)
    have himp : ∀ x ∈ rest,
        ((p.touchOne b).refOf x == 0) = true → (p.refOf x == 0) = true := by
      intro x _ hx
      by_cases hxb : x = b
      · subst hxb
        rcases touchOne_refOf_self p x with he | he
        · rwa [he] at hx
        · rw [he] at hx
          simp only [beq_iff_eq] at hx ⊢
          omega
      · rwa [touchOne_refOf_ne p b x hxb] at hx
    have hcnt : (rest.filter (fun x => (p.touchOne b).refOf x == 0)).length ≤
        (rest.filter (fun x => p.refOf x == 0)).length :=
      length_filter_le_of_imp rest _ _ himp
    have hfree : (p.queue.length : Int) - (if p.refOf b = 0 then 1 else 0) ≤
        ((p.touchOne b).queue.length : Int) := by
      rw [touchOne_queue]
      by_cases hb0 : p.refOf b = 0
      · rw [if_pos hb0, if_pos hb0, List.length_erase]
        split
        · have : 1 ≤ p.queue.length := by
            rename_i hmem
            exact List.length_pos.mpr (List.ne_nil_of_mem hmem)
          omega
        · omega
      · rw [if_neg hb0, if_neg hb0]
        omega
    have hrest : ∀ x ∈ rest, 0 ≤ (p.touchOne b).refOf x := by
      intro x hx
      by_cases hxb : x = b
      · subst hxb
        rcases touchOne_refOf_self p x with he | he <;> rw [he] <;> omega
      · rw [touchOne_refOf_ne p b x hxb]
        exact h x (List.mem_cons_of_mem b hx)
    have iht := ih (p.touchOne b) hrest
    have hfold : p.touch (b :: rest) = (p.touchOne b).touch rest := by
      simp [BlockPool.touch]
    rw [hfold]
    simp only [BlockPool.get_num_free_blocks] at iht ⊢
    by_cases hb0 : p.refOf b = 0
    · have hfc : List.filter (fun x => p.refOf x == 0) (b :: rest) =
          b :: rest.filter (fun x => p.refOf x == 0) := by
        simp [List.filter_cons, hb0]
      rw [hfc]
      rw [if_pos hb0] at hfree
      simp only [List.length_cons]
      omega
    · have hfc : List.filter (fun x => p.refOf x == 0) (b :: rest) =
          rest.filter (fun x => p.refOf x == 0) := by
        simp [List.filter_cons, hb0]
      rw [hfc]
      rw [if_neg hb0] at hfree
      omega

/-! ### Cache-registration lemmas -/

theorem lookupIndex_append_isSome (idx : List (BlockHash × Nat))
    (e : BlockHash × Nat) (h : BlockHash)
    (hs : (lookupIndex idx h).isSome = true) :
    (lookupIndex (idx ++ [e]) h).isSome = true := by
  simp only [lookupIndex, List.find?_append] at *
  cases hf : idx.find? (fun p => p.1 == h) with
  | none => rw [hf] at hs; simp at hs
  | some v => simp [hf]

theorem cfbStep_mono (blocks : List Nat) (hashes : List BlockHash)
    (p : BlockPool) (i : Nat) (h : BlockHash)
    (hs : (lookupIndex p.index h).isSome = true) :
    (lookupIndex (BlockPool.cfbStep blocks hashes p i).index h).isSome = true := by
  unfold BlockPool.cfbStep
  cases hh : hashes[i]? with
  | none => exact hs
  | some hv =>
    cases hb : blocks[i]? with
    | none => exact hs
    | some bv =>
      simp only
      split
      · exact hs
      · exact lookupIndex_append_isSome p.index (hv, bv) h hs

theorem cfbStep_self (blocks : List Nat) (hashes : List BlockHash)
    (p : BlockPool) (i : Nat) (h : BlockHash) (b : Nat)
    (hh : hashes[i]? = some h) (hb : blocks[i]? = some b) :
    (lookupIndex (BlockPool.cfbStep blocks hashes p i).index h).isSome = true := by
  unfold BlockPool.cfbStep
  rw [hh, hb]
  simp only
  split
  · assumption
  · simp [lookupIndex, List.find?_append]

theorem cfb_fold_mono (blocks : List Nat) (hashes : List BlockHash)
    (l : List Nat) (p : BlockPool) (h : BlockHash)
    (hs : (lookupIndex p.index h).isSome = true) :
    (lookupIndex ((l.foldl (BlockPool.cfbStep blocks hashes) p).index) h).isSome
      = true := by
  induction l generalizing p with
  | nil => exact hs
  | cons j rest ih =>
    exact ih (BlockPool.cfbStep blocks hashes p j)
      (cfbStep_mono blocks hashes p j h hs)

theorem cfb_fold_mem (blocks : List Nat) (hashes : List BlockHash)
    (l : List Nat) (p : BlockPool) (i : Nat) (h : BlockHash) (b : Nat)
    (hmem : i ∈ l) (hh : hashes[i]? = some h) (hb : blocks[i]? = some b) :
    (lookupIndex ((l.foldl (BlockPool.cfbStep blocks hashes) p).index) h).isSome
      = true := by
  induction l generalizing p with
  | nil => cases hmem
  | cons j rest ih =>
    by_cases hij : i = j
    · subst hij
      exact cfb_fold_mono blocks hashes rest _ h
        (cfbStep_self blocks hashes p i h b hh hb)
    · have : i ∈ rest := by
        cases List.mem_cons.mp hmem with
        | inl he => exact absurd he hij
        | inr hr => exact hr
      exact ih (BlockPool.cfbStep blocks hashes p j) this

theorem cache_full_blocks_isSome (p : BlockPool) (blocks : List Nat)
    (hashes : List BlockHash) (a nf i : Nat) (h : BlockHash) (b : Nat)
    (hai : a ≤ i) (hin : i < nf) (hh : hashes[i]? = some h)
    (hb : blocks[i]? = some b) :
    (lookupIndex (p.cache_full_blocks blocks hashes a nf).index h).isSome
      = true := by
  unfold BlockPool.cache_full_blocks
  apply cfb_fold_mem blocks hashes _ p i h b _ hh hb
  rw [List.mem_range'_1]
  omega

/-! ### `allocFinish` lemmas -/

theorem allocFinish_fst (st1 : KVCacheManager) (request : Request)
    (a nt : Int) (ncl : Nat) (rb2 nbs : List Nat) (p3 : BlockPool)
    (s1 : PrefixCacheStats) (t1 : CacheTelemetry) :
    (st1.allocFinish request a nt ncl rb2 nbs p3 s1 t1).1 = .ok nbs := by
  unfold KVCacheManager.allocFinish
  split <;> rfl

theorem allocFinish_req_blocks (st1 : KVCacheManager) (request : Request)
    (a nt : Int) (ncl : Nat) (rb2 nbs : List Nat) (p3 : BlockPool)
    (s1 : PrefixCacheStats) (t1 : CacheTelemetry) :
    alookup (st1.allocFinish request a nt ncl rb2 nbs p3 s1 t1).2.req_to_blocks
      request.request_id = some rb2 := by
  unfold KVCacheManager.allocFinish
  split <;> exact alookup_aset_self _ _ _

theorem allocFinish_stats (st1 : KVCacheManager) (request : Request)
    (a nt : Int) (ncl : Nat) (rb2 nbs : List Nat) (p3 : BlockPool)
    (s1 : PrefixCacheStats) (t1 : CacheTelemetry) :
    (st1.allocFinish request a nt ncl rb2 nbs p3 s1 t1).2.prefix_cache_stats
      = s1 := by
  unfold KVCacheManager.allocFinish
  split <;> rfl

theorem allocFinish_tel (st1 : KVCacheManager) (request : Request)
    (a nt : Int) (ncl : Nat) (rb2 nbs : List Nat) (p3 : BlockPool)
    (s1 : PrefixCacheStats) (t1 : CacheTelemetry) :
    (st1.allocFinish request a nt ncl rb2 nbs p3 s1 t1).2.cache_telemetry
      = t1 := by
  unfold KVCacheManager.allocFinish
  split <;> rfl

theorem allocFinish_num_cached (st1 : KVCacheManager) (request : Request)
    (a nt : Int) (ncl : Nat) (rb2 nbs : List Nat) (p3 : BlockPool)
    (s1 : PrefixCacheStats) (t1 : CacheTelemetry)
    (hc : st1.enable_caching = true) :
    alookup (st1.allocFinish request a nt ncl rb2 nbs p3 s1 t1).2.num_cached_block
        request.request_id =
      some (Int.fdiv (a + nt - request.spec_token_ids.length) st1.block_size) := by
  unfold KVCacheManager.allocFinish
  rw [if_neg (by simp [hc])]
  exact alookup_aset_self _ _ _

theorem allocFinish_pool (st1 : KVCacheManager) (request : Request)
    (a nt : Int) (ncl : Nat) (rb2 nbs : List Nat) (p3 : BlockPool)
    (s1 : PrefixCacheStats) (t1 : CacheTelemetry)
    (hc : st1.enable_caching = true) :
    (st1.allocFinish request a nt ncl rb2 nbs p3 s1 t1).2.pool =
      p3.cache_full_blocks rb2
        (alookupD st1.req_to_block_hashes request.request_id [])
        (alookupD st1.num_cached_block request.request_id (ncl : Int)).toNat
        (Int.fdiv (a + nt - request.spec_token_ids.length) st1.block_size).toNat := by
  unfold KVCacheManager.allocFinish
  rw [if_neg (by simp [hc])]

theorem get_new_blocks_fst (p : BlockPool) (n : Nat) :
    (p.get_new_blocks n).1 = p.queue.take n := rfl

/-! ### Ceiling-division lemmas -/

theorem fdiv_neg_right (a c : Int) : a.fdiv (-c) = (-a).fdiv c := by
  rcases a with m | m <;> rcases c with n | n <;> cases m <;> cases n
  case ofNat.ofNat.succ.zero k =>
    show Int.ofNat ((k + 1) / 0) = 0
    rw [Nat.div_zero]
    rfl
  case negSucc.ofNat.succ.zero k =>
    show (0 : Int) = Int.ofNat ((k + 2) / 0)
    rw [Nat.div_zero]
    rfl
  all_goals rfl

theorem cdivInt_eq_neg_ediv (a : Int) {c : Int} (hc : 0 ≤ c) :
    cdivInt a c = -((-a) / c) := by
  unfold cdivInt
  rw [fdiv_neg_right, Int.fdiv_eq_ediv _ hc]

theorem cdivInt_mono {a b c : Int} (hc : 0 < c) (h : a ≤ b) :
    cdivInt a c ≤ cdivInt b c := by
  rw [cdivInt_eq_neg_ediv a hc.le, cdivInt_eq_neg_ediv b hc.le]
  have := Int.ediv_le_ediv hc (neg_le_neg h)
  omega

/-! ### Telemetry lemmas -/

theorem record_hit_of_first (t : CacheTelemetry) (h : t.first_block = true)
    (n : Int) (rid : Option String) :
    t.record_hit n rid = { t with first_block := false } := by
  unfold CacheTelemetry.record_hit
  rw [if_pos h]

theorem record_hit_total_of_not_first (t : CacheTelemetry)
    (h : t.first_block = false) (n : Int) (hn : 0 < n) :
    (t.record_hit n none).total_hits = t.total_hits + n ∧
      (t.record_hit n none).first_block = false := by
  unfold CacheTelemetry.record_hit
  rw [if_neg (by simp [h]), if_pos hn]
  exact ⟨rfl, h⟩

theorem record_hit_fold_total (l : List Int) (t : CacheTelemetry)
    (h : t.first_block = false) (hp : ∀ x ∈ l, 0 < x) :
    (l.foldl (fun s x => s.record_hit x none) t).total_hits =
      t.total_hits + l.sum := by
  induction l generalizing t with
  | nil => simp
  | cons x rest ih =>
    have hx := hp x (List.mem_cons_self x rest)
    obtain ⟨ht, hf⟩ := record_hit_total_of_not_first t h x hx
    calc ((x :: rest).foldl (fun s x => s.record_hit x none) t).total_hits
        = (rest.foldl (fun s x => s.record_hit x none)
            (t.record_hit x none)).total_hits := by simp
      _ = (t.record_hit x none).total_hits + rest.sum :=
          ih _ hf (fun y hy => hp y (List.mem_cons_of_mem x hy))
      _ = t.total_hits + (x :: rest).sum := by rw [ht]; simp; ring

/-! ### Claim theorems -/

/-- C4: for every request, if caching is disabled or the request asks for
prompt log-probabilities, `get_computed_blocks` returns an empty block list
and 0 computed tokens; in every case the returned `num_computed_tokens`
equals the number of matched blocks times the block size. -/
theorem claim_C4_skip_and_block_alignment (st : KVCacheManager)
    (request : Request) :
    ((st.enable_caching = false ∨ request.prompt_logprobs ≠ none) →
      (st.get_computed_blocks request).1 = ([], 0)) ∧
    (st.get_computed_blocks request).1.2 =
      (st.get_computed_blocks request).1.1.length * st.block_size := by
  constructor
  · intro hdisj
    simp only [KVCacheManager.get_computed_blocks]
    rcases hdisj with hd | hd
    · rw [if_pos (by simp [hd])]
    · by_cases hc : st.enable_caching
      · rw [if_neg (by simp [hc]),
          if_pos (Option.ne_none_iff_isSome.mp hd)]
      · rw [if_pos (by simp [hc])]
  · simp only [KVCacheManager.get_computed_blocks]
    split
    · simp
    · split
      · simp
      · rfl

/-- C4 witness: the theorem applied to the prompt-logprobs-free fixture. -/
theorem claim_C4_witness :
    ((stC1.enable_caching = false ∨ reqC1.prompt_logprobs ≠ none) →
      (stC1.get_computed_blocks reqC1).1 = ([], 0)) ∧
    (stC1.get_computed_blocks reqC1).1.2 =
      (stC1.get_computed_blocks reqC1).1.1.length * stC1.block_size :=
  claim_C4_skip_and_block_alignment stC1 reqC1

/-- C1: when the prompt length is an exact multiple of the block size, the
chain's last hash is dropped before matching, so at most `len(chain) - 1`
blocks are reported even for a fully cached prompt; the dropped hash is
restored in the stored chain before the call returns. -/
theorem claim_C1_exact_multiple_edge (st : KVCacheManager)
    (request : Request) (bh : List BlockHash)
    (hc : st.enable_caching = true)
    (hl : request.prompt_logprobs = none)
    (hbh : bh =
      (if (alookupD st.req_to_block_hashes request.request_id []).isEmpty
        then hash_request_tokens st.block_size request.tokens
        else alookupD st.req_to_block_hashes request.request_id []))
    (hexact : bh.length * st.block_size = request.num_tokens)
    (hne : bh ≠ []) :
    (st.get_computed_blocks request).1.1.length + 1 ≤ bh.length ∧
    alookupD (st.get_computed_blocks request).2.req_to_block_hashes
      request.request_id [] = bh ∧
    ((∀ h ∈ bh.dropLast, (lookupIndex st.pool.index h).isSome = true) →
      (st.get_computed_blocks request).1.2 =
        (bh.length - 1) * st.block_size) := by
  simp only [KVCacheManager.get_computed_blocks, ← hbh]
  rw [if_neg (by simp [hc]), if_pos hexact]
  simp only [hl, Option.isSome_none, Bool.false_eq_true, if_false]
  refine ⟨?_, ?_, ?_⟩
  · have h1 := find_longest_cache_hit_length_le st.pool.index bh.dropLast
    have h2 := List.length_dropLast bh
    have h3 : 1 ≤ bh.length := List.length_pos.mpr hne
    omega
  · rw [alookupD, alookup_aset_self]
    simp [dropLast_append_getLast?_toList bh hne]
  · intro hall
    have h1 := find_longest_cache_hit_length_of_hits st.pool.index
      bh.dropLast hall
    rw [h1, List.length_dropLast]

/-- C1 witness: with `block_size = 16` and a fully cached 32-token prompt,
exactly one block (16 tokens) is reported and the stored chain is left
intact. -/
theorem claim_C1_witness :
    (stC1.get_computed_blocks reqC1).1.1.length + 1 ≤ 2 ∧
    alookupD (stC1.get_computed_blocks reqC1).2.req_to_block_hashes
      "r1" [] = [hash0, hash1] ∧
    ((∀ h ∈ [hash0, hash1].dropLast,
        (lookupIndex stC1.pool.index h).isSome = true) →
      (stC1.get_computed_blocks reqC1).1.2 = (2 - 1) * 16) :=
  claim_C1_exact_multiple_edge stC1 reqC1 [hash0, hash1]
    (by decide) (by decide) (by decide) (by decide) (by decide)

/-- C2 counterexample: `allocate_slots` called with the negative token
count -1 does not raise — it returns a successful empty allocation and
leaves the state untouched, refuting "zero or negative ... raising". -/
theorem claim_C2_counterexample :
    stC2.allocate_slots reqC2 (-1) [] = (.ok [], stC2) := by decide

/-- C2 amended: `allocate_slots` fails fast by raising exactly when
`num_tokens` equals 0, before any state mutation (the state is returned
unchanged); a negative `num_tokens` is not rejected. -/
theorem claim_C2_amended_zero_raises (st : KVCacheManager)
    (request : Request) (nc : List Nat) :
    st.allocate_slots request 0 nc = (.err, st) := by
  unfold KVCacheManager.allocate_slots
  rw [if_pos rfl]

/-- C3: when the new blocks needed exceed the pool's free blocks minus the
zero-ref computed blocks, `allocate_slots` returns the explicit
cannot-allocate signal and the state is unchanged (with the full-attention
policy, the step-1 release frees nothing). -/
theorem claim_C3_capacity_failure (st : KVCacheManager) (request : Request)
    (nt : Int) (nc : List Nat) (hnt : 0 < nt)
    (hcap : cdivInt ((request.num_computed_tokens : Int) +
          (nc.length : Int) * (st.block_size : Int) + nt) st.block_size -
        ((alookupD st.req_to_blocks request.request_id []).length : Int) -
        (nc.length : Int) >
      (st.pool.get_num_free_blocks : Int) -
        ((nc.filter (fun b => st.pool.refOf b == 0)).length : Int)) :
    st.allocate_slots request nt nc = (.noAlloc, st) := by
  simp only [KVCacheManager.allocate_slots, remove_skipped_blocks,
    BlockPool.free_blocks, List.foldl_nil]
  rw [if_neg (by omega), if_pos hcap]

/-- C3 witness: an empty pool rejects a one-block request without touching
any state. -/
theorem claim_C3_witness :
    (0 : Int) < 16 ∧ stC3.allocate_slots reqC3 16 [] = (.noAlloc, stC3) :=
  ⟨by norm_num,
   claim_C3_capacity_failure stC3 reqC3 16 [] (by norm_num) (by decide)⟩

/-- C6: `free` pops the request's block list, releases it tail-first when
caching is enabled and head-first otherwise; when each freed block had ref
count 1, the evictable queue gains exactly that ordered list at its tail. -/
theorem claim_C6_free_order (st : KVCacheManager) (request : Request) :
    alookup (st.free request).req_to_blocks request.request_id = none ∧
    (st.free request).pool = st.pool.free_blocks
      (if st.enable_caching = true
        then (alookupD st.req_to_blocks request.request_id []).reverse
        else alookupD st.req_to_blocks request.request_id []) ∧
    ((∀ b ∈ alookupD st.req_to_blocks request.request_id [],
        st.pool.refOf b = 1) →
      (alookupD st.req_to_blocks request.request_id []).Nodup →
      (st.free request).pool.queue = st.pool.queue ++
        (if st.enable_caching = true
          then (alookupD st.req_to_blocks request.request_id []).reverse
          else alookupD st.req_to_blocks request.request_id [])) := by
  refine ⟨?_, rfl, ?_⟩
  · exact alookup_aerase_self _ _
  · intro h1 hnd
    show (st.pool.free_blocks _).queue = _
    by_cases hc : st.enable_caching = true
    · rw [if_pos hc]
      exact free_blocks_queue _ st.pool
        (fun b hb => h1 b (List.mem_reverse.mp hb))
        (List.nodup_reverse.mpr hnd)
    · rw [if_neg hc]
      exact free_blocks_queue _ st.pool h1 hnd

/-- C6 witness: freeing a two-block request with caching enabled appends
its blocks tail-first to the queue. -/
theorem claim_C6_witness :
    alookup (stC6.free reqC6).req_to_blocks "r6" = none ∧
    (stC6.free reqC6).pool = stC6.pool.free_blocks
      (if stC6.enable_caching = true
        then (alookupD stC6.req_to_blocks "r6" []).reverse
        else alookupD stC6.req_to_blocks "r6" []) ∧
    ((∀ b ∈ alookupD stC6.req_to_blocks "r6" [], stC6.pool.refOf b = 1) →
      (alookupD stC6.req_to_blocks "r6" []).Nodup →
      (stC6.free reqC6).pool.queue = stC6.pool.queue ++
        (if stC6.enable_caching = true
          then (alookupD stC6.req_to_blocks "r6" []).reverse
          else alookupD stC6.req_to_blocks "r6" [])) :=
  claim_C6_free_order stC6 reqC6

/-- Freeing a request that owns no blocks and has no cached-block count is
the identity on the whole manager state. -/
theorem free_eq_self_of_absent (st : KVCacheManager) (request : Request)
    (h1 : alookup st.req_to_blocks request.request_id = none)
    (h2 : alookup st.num_cached_block request.request_id = none) :
    st.free request = st := by
  unfold KVCacheManager.free
  have hb : alookupD st.req_to_blocks request.request_id [] = [] := by
    simp [alookupD, h1]
  rw [aerase_of_alookup_none h1, aerase_of_alookup_none h2, hb]
  simp [BlockPool.free_blocks]

/-- C7: freeing twice is a no-op the second time; freeing an id that never
allocated leaves the whole state (pool included) unchanged; and
`free_block_hashes` after `free` is a no-op when no chain is stored. -/
theorem claim_C7_free_idempotent (st : KVCacheManager) (request : Request)
    (h1 : alookup st.req_to_blocks request.request_id = none)
    (h2 : alookup st.num_cached_block request.request_id = none)
    (h3 : alookup st.req_to_block_hashes request.request_id = none) :
    (∀ st0 : KVCacheManager, (st0.free request).free request = st0.free request) ∧
    st.free request = st ∧
    st.free_block_hashes request = st := by
  refine ⟨?_, free_eq_self_of_absent st request h1 h2, ?_⟩
  · intro st0
    apply free_eq_self_of_absent
    · exact alookup_aerase_self _ _
    · exact alookup_aerase_self _ _
  · unfold KVCacheManager.free_block_hashes
    rw [aerase_of_alookup_none h3]

/-- C7 witness: the theorem applied to a state in which the request id owns
nothing. -/
theorem claim_C7_witness :
    (∀ st0 : KVCacheManager, (st0.free reqC6).free reqC6 = st0.free reqC6) ∧
    stC7.free reqC6 = stC7 ∧
    stC7.free_block_hashes reqC6 = stC7 :=
  claim_C7_free_idempotent stC7 reqC6 (by decide) (by decide) (by decide)

/-- C10: the first `record_hit` after construction or reset changes nothing
but the first-block flag — no counter and no per-request bookkeeping —
regardless of its arguments, so the hits total of a run of positive-count
`record_hit` calls is the sum of all counts except the first. -/
theorem claim_C10_first_hit_ignored (t : CacheTelemetry) (n : Int)
    (rid : Option String) (l : List Int)
    (hf : t.first_block = true) (hp : ∀ x ∈ l, 0 < x) :
    t.record_hit n rid = { t with first_block := false } ∧
    (l.foldl (fun s x => s.record_hit x none) t).total_hits =
      t.total_hits + (l.drop 1).sum := by
  refine ⟨record_hit_of_first t hf n rid, ?_⟩
  cases l with
  | nil => simp
  | cons x rest =>
    have h1 : t.record_hit x none = { t with first_block := false } :=
      record_hit_of_first t hf x none
    calc ((x :: rest).foldl
            (fun (s : CacheTelemetry) x => s.record_hit x none) t).total_hits
        = (rest.foldl (fun (s : CacheTelemetry) x => s.record_hit x none)
            (t.record_hit x none)).total_hits := by simp
      _ = (rest.foldl (fun (s : CacheTelemetry) x => s.record_hit x none)
            { t with first_block := false }).total_hits := by rw [h1]
      _ = t.total_hits + rest.sum :=
          record_hit_fold_total rest _ rfl
            (fun y hy => hp y (List.mem_cons_of_mem x hy))
      _ = t.total_hits + ((x :: rest).drop 1).sum := by simp

/-- C10 witness: on a fresh telemetry, a first hit of 5 blocks records
nothing, and the run [2, 3] accumulates only 3 total hits. -/
theorem claim_C10_witness :
    tel0.record_hit 5 (some "a") = { tel0 with first_block := false } ∧
    ([2, 3].foldl (fun s x => s.record_hit x none) tel0).total_hits =
      tel0.total_hits + ([2, 3].drop 1).sum :=
  claim_C10_first_hit_ignored tel0 5 (some "a") [2, 3] (by decide) (by decide)

/-- C9 counterexample: `allocate_slots` pulls the only free block, which
still holds cached content — its cache-index entry is evicted — yet both
the stats eviction counter and the telemetry eviction total stay 0 (and
log_stats is on). -/
theorem claim_C9_counterexample :
    stC9.log_stats = true ∧
    stC9.pool.index = [(hash0, 0)] ∧
    (stC9.allocate_slots reqC9 16 []).1 = .ok [0] ∧
    (stC9.allocate_slots reqC9 16 []).2.pool.index = [] ∧
    (stC9.allocate_slots reqC9 16 []).2.prefix_cache_stats.evictions = 0 ∧
    (stC9.allocate_slots reqC9 16 []).2.cache_telemetry.total_evictions
      = 0 := by decide

/-- C9 amended: `allocate_slots` never records an eviction — the
recording branch requires the requested block count to exceed the free
count, but that count was already capped by the free count, so the branch
is unreachable and the eviction counters are invariant under every call. -/
theorem claim_C9_amended_no_eviction_accounting (st : KVCacheManager)
    (request : Request) (nt : Int) (nc : List Nat) :
    (st.allocate_slots request nt nc).2.prefix_cache_stats.evictions =
      st.prefix_cache_stats.evictions ∧
    (st.allocate_slots request nt nc).2.prefix_cache_stats.request_evictions =
      st.prefix_cache_stats.request_evictions ∧
    (st.allocate_slots request nt nc).2.cache_telemetry.total_evictions =
      st.cache_telemetry.total_evictions := by
  simp only [KVCacheManager.allocate_slots, remove_skipped_blocks,
    BlockPool.free_blocks, List.foldl_nil]
  split_ifs <;>
    first
      | exact ⟨rfl, rfl, rfl⟩
      | (rw [allocFinish_stats, allocFinish_tel]; exact ⟨rfl, rfl, rfl⟩)
      | (exfalso; omega)

/-- C5: on every successful allocation with caching enabled, the recorded
cached-block count becomes exactly
`floor((num_computed_tokens + num_tokens - num_speculative) / block_size)`,
and every chain position from the previously recorded count up to that
value whose hash and block exist is registered in the cache index. -/
theorem claim_C5_cache_publication (st : KVCacheManager) (request : Request)
    (nt : Int) (nc : List Nat) (hc : st.enable_caching = true)
    (hok : (st.allocate_slots request nt nc).1.isOk = true) :
    alookup (st.allocate_slots request nt nc).2.num_cached_block
        request.request_id =
      some (Int.fdiv ((request.num_computed_tokens : Int) +
        (nc.length : Int) * (st.block_size : Int) + nt -
        (request.spec_token_ids.length : Int)) (st.block_size : Int)) ∧
    (∀ i : Nat,
      (alookupD st.num_cached_block request.request_id
        ((nc.length : Int))).toNat ≤ i →
      i < (Int.fdiv ((request.num_computed_tokens : Int) +
        (nc.length : Int) * (st.block_size : Int) + nt -
        (request.spec_token_ids.length : Int)) (st.block_size : Int)).toNat →
      ∀ h : BlockHash,
        (alookupD st.req_to_block_hashes request.request_id [])[i]? = some h →
        (h2 : i < (alookupD (st.allocate_slots request nt nc).2.req_to_blocks
          request.request_id []).length) →
        (lookupIndex (st.allocate_slots request nt nc).2.pool.index h).isSome
          = true) := by
  simp only [KVCacheManager.allocate_slots, remove_skipped_blocks,
    BlockPool.free_blocks, List.foldl_nil] at hok ⊢
  split_ifs at hok ⊢
  all_goals try (exact Bool.noConfusion hok)
  all_goals try (exfalso; omega)
  all_goals
    refine ⟨allocFinish_num_cached _ _ _ _ _ _ _ _ _ _ hc, ?_⟩
  all_goals
    rw [allocFinish_pool _ _ _ _ _ _ _ _ _ _ hc]
  all_goals
    intro i hi1 hi2 h hh hlen
  all_goals
    rw [alookupD, allocFinish_req_blocks, Option.getD_some] at hlen
  all_goals
    exact cache_full_blocks_isSome _ _ _ _ _ i h _ hi1 hi2 hh
      (List.getElem?_eq_getElem hlen)

/-- C5 witness: a 32-token prompt with a stored two-hash chain publishes
both blocks and records a cached-block count of 2. -/
theorem claim_C5_witness :
    stC5.enable_caching = true ∧
    (stC5.allocate_slots reqC5 32 []).1.isOk = true ∧
    (alookup (stC5.allocate_slots reqC5 32 []).2.num_cached_block
        "r5" =
      some (Int.fdiv ((reqC5.num_computed_tokens : Int) +
        (([] : List Nat).length : Int) * (stC5.block_size : Int) + 32 -
        (reqC5.spec_token_ids.length : Int)) (stC5.block_size : Int)) ∧
    (∀ i : Nat,
      (alookupD stC5.num_cached_block "r5"
        ((([] : List Nat).length : Int))).toNat ≤ i →
      i < (Int.fdiv ((reqC5.num_computed_tokens : Int) +
        (([] : List Nat).length : Int) * (stC5.block_size : Int) + 32 -
        (reqC5.spec_token_ids.length : Int)) (stC5.block_size : Int)).toNat →
      ∀ h : BlockHash,
        (alookupD stC5.req_to_block_hashes "r5" [])[i]? = some h →
        (h2 : i < (alookupD (stC5.allocate_slots reqC5 32 []).2.req_to_blocks
          "r5" []).length) →
        (lookupIndex (stC5.allocate_slots reqC5 32 []).2.pool.index h).isSome
          = true)) :=
  ⟨by decide, by decide,
   claim_C5_cache_publication stC5 reqC5 32 [] (by decide) (by decide)⟩

/-- C8 counterexample: a successful first allocation of 16 tokens
(one required block) hands the request five blocks because of
preallocation, so the block-list length is not equal to
`ceil((num_computed_tokens + tokens)/block_size) = 1`. -/
theorem claim_C8_counterexample :
    (stC8.allocate_slots reqC8 16 []).1 = .ok [0, 1, 2, 3, 4] ∧
    (alookupD (stC8.allocate_slots reqC8 16 []).2.req_to_blocks
      "r8" []).length = 5 ∧
    cdivInt ((reqC8.num_computed_tokens : Int) + 16)
      (stC8.block_size : Int) = 1 := by decide

set_option maxHeartbeats 2000000 in
/-- C8 amended: after a successful `allocate_slots` call whose token total
fits in `max_model_len` and which needs at least as many blocks as the
request already holds, the block-list length is at least
`ceil((num_computed_tokens + num_tokens)/block_size)` — preallocation may
exceed it — and never exceeds `ceil(max_model_len/block_size)`. -/
theorem claim_C8_amended_block_count_bounds (st : KVCacheManager)
    (request : Request) (nt : Int) (nc : List Nat)
    (hbs : 0 < st.block_size)
    (hrefs : ∀ b ∈ nc, 0 ≤ st.pool.refOf b)
    (hfit : (request.num_computed_tokens : Int) +
        (nc.length : Int) * (st.block_size : Int) + nt ≤
      (st.max_model_len : Int))
    (hneed : ((alookupD st.req_to_blocks request.request_id []).length : Int) +
        (nc.length : Int) ≤
      cdivInt ((request.num_computed_tokens : Int) +
        (nc.length : Int) * (st.block_size : Int) + nt)
        (st.block_size : Int))
    (hok : (st.allocate_slots request nt nc).1.isOk = true) :
    cdivInt ((request.num_computed_tokens : Int) +
        (nc.length : Int) * (st.block_size : Int) + nt)
        (st.block_size : Int) ≤
      ((alookupD (st.allocate_slots request nt nc).2.req_to_blocks
        request.request_id []).length : Int) ∧
    ((alookupD (st.allocate_slots request nt nc).2.req_to_blocks
        request.request_id []).length : Int) ≤ st.max_num_blocks_per_req := by
  have hcap : cdivInt ((request.num_computed_tokens : Int) +
      (nc.length : Int) * (st.block_size : Int) + nt)
      (st.block_size : Int) ≤ st.max_num_blocks_per_req := by
    unfold KVCacheManager.max_num_blocks_per_req
    exact cdivInt_mono (by exact_mod_cast hbs) hfit
  have htouch := touch_free_blocks_ge nc st.pool hrefs
  have hql : (st.pool.touch nc).get_num_free_blocks =
      (st.pool.touch nc).queue.length := rfl
  have hql2 : st.pool.get_num_free_blocks = st.pool.queue.length := rfl
  simp only [KVCacheManager.allocate_slots, remove_skipped_blocks,
    BlockPool.free_blocks, List.foldl_nil] at hok ⊢
  split_ifs at hok ⊢
  all_goals try (exact Bool.noConfusion hok)
  all_goals try (exfalso; omega)
  all_goals
    rw [alookupD, allocFinish_req_blocks, Option.getD_some]
  all_goals
    simp only [get_new_blocks_fst, List.length_append, List.length_take] at *
  all_goals
    omega

/-- C8 witness: a first allocation of 16 tokens on ten free blocks ends
with at least the one required block and at most the ten-block cap. -/
theorem claim_C8_witness :
    0 < stC8.block_size ∧
    (cdivInt ((reqC8.num_computed_tokens : Int) +
        ((([] : List Nat)).length : Int) * (stC8.block_size : Int) + 16)
        (stC8.block_size : Int) ≤
      ((alookupD (stC8.allocate_slots reqC8 16 []).2.req_to_blocks
        "r8" []).length : Int) ∧
    ((alookupD (stC8.allocate_slots reqC8 16 []).2.req_to_blocks
        "r8" []).length : Int) ≤ stC8.max_num_blocks_per_req) :=
  ⟨by decide,
   claim_C8_amended_block_count_bounds stC8 reqC8 16 []
     (by decide) (by decide) (by decide) (by decide) (by decide)⟩

end VllmKV
